import Mathlib

/-!
Verification of the ussdapp session-state engine (Go) against its
natural-language specification.

The Go sources are shallowly embedded as executable Lean definitions:

* Go `map[string]T` values (the menu registry, cache hashes, query
  parameters, JSON objects) are modelled as association lists
  (`List (String × T)`) with first-match lookup and replace-or-append
  insertion, matching the per-key read/write semantics used by the code.
* Go strings are modelled as Lean `String`s restricted to their character
  data (`String.data`); byte indexing in the source only ever happens on
  ASCII prefixes, where byte positions and character positions coincide.
* The external cache (the `Cacher` interface, implemented by the redis
  backend) is modelled by an explicit in-memory state: a hash store plus a
  log of `Expire` calls.  `GetMapField` yields `ErrKeyNotFound` when the
  key or the field is absent, exactly as the redis backend maps `redis.Nil`.
  Where a claim quantifies over arbitrary cache failures the cache call is
  instead a function parameter (`GetLanguage` below).
* Fallible Go functions returning `(T, error)` become `Except GoErr T`;
  a nil-pointer dereference is modelled by the distinguished
  `GoErr.nilDeref`, and Go string slicing out of range by `Option.none`.
* `encoding/json` round trips are modelled at the level of the serialized
  JSON object (key/value list with `omitempty` semantics); the textual
  rendering of that object by the Go standard library is external code and
  is abstracted as bijective on such objects.
-/

/-- Association-list lookup: first entry whose key matches, as Go map reads. -/
def lookupL {α : Type} : List (String × α) → String → Option α
  | [], _ => none
  | (k, v) :: rest, key => if k = key then some v else lookupL rest key

/-- Association-list insertion: replace the first entry with the key, or
append, as Go map writes. -/
def insertL {α : Type} : List (String × α) → String → α → List (String × α)
  | [], key, v => [(key, v)]
  | (k, w) :: rest, key, v =>
    if k = key then (key, v) :: rest else (k, w) :: insertL rest key v

/-- Characters trimmed by Go `strings.TrimSpace` (ASCII fragment of Unicode
white space; the engine only ever frames ASCII wire text). -/
def isGoSpace (c : Char) : Bool :=
  c = ' ' || c = '\t' || c = '\n' || c = '\x0b' || c = '\x0c' || c = '\r'

/-- Go `strings.TrimSpace`. -/
def goTrimSpace (s : String) : String :=
  String.mk (((s.data.dropWhile isGoSpace).reverse.dropWhile isGoSpace).reverse)

/-- Go string slicing `s[n:]`: panics (here `none`) when `n > len(s)`. -/
def goSliceFrom (s : String) (n : Nat) : Option String :=
  if n ≤ s.data.length then some (String.mk (s.data.drop n)) else none

/-- Splitting on a single character, as Go `strings.Split(s, sep)` for a
one-character separator: `Split("", sep) = [""]`. -/
def splitOnChar (sep : Char) : List Char → List (List Char)
  | [] => [[]]
  | c :: rest =>
    let r := splitOnChar sep rest
    if c = sep then [] :: r
    else
      match r with
      | [] => [[c]]
      | h :: t => (c :: h) :: t

/-- Go `strings.Split(s, "*")`, the dial-string tokenizer. -/
def goSplitStar (s : String) : List String :=
  (splitOnChar '*' s.data).map String.mk

/-- Go `ishex` from `net/url`. -/
def goIsHex (c : Char) : Bool :=
  ('0' ≤ c && c ≤ '9') || ('a' ≤ c && c ≤ 'f') || ('A' ≤ c && c ≤ 'F')

/-- Go `unhex` from `net/url`. -/
def goUnhex (c : Char) : Nat :=
  if '0' ≤ c && c ≤ '9' then c.toNat - '0'.toNat
  else if 'a' ≤ c && c ≤ 'f' then c.toNat - 'a'.toNat + 10
  else if 'A' ≤ c && c ≤ 'F' then c.toNat - 'A'.toNat + 10
  else 0

/-- Go `url.QueryUnescape` on character data: `%XX` decodes to a byte and
fails unless followed by two hex digits; `+` becomes a space. -/
def queryUnescapeAux : List Char → Option (List Char)
  | [] => some []
  | '%' :: a :: b :: rest =>
    if goIsHex a && goIsHex b then
      (queryUnescapeAux rest).map (Char.ofNat (16 * goUnhex a + goUnhex b) :: ·)
    else none
  | '%' :: _ => none
  | '+' :: rest => (queryUnescapeAux rest).map (' ' :: ·)
  | c :: rest => (queryUnescapeAux rest).map (c :: ·)

/-- Go `url.QueryUnescape`; `none` is the error return. -/
def queryUnescape (s : String) : Option String :=
  (queryUnescapeAux s.data).map String.mk

/-- Go `firstVal(vals ...string)` from ussdapp.go: first non-empty value. -/
def firstVal : List String → String
  | [] => ""
  | v :: rest => if v ≠ "" then v else firstVal rest

/-- Errors of the external cache: `ErrKeyNotFound` and any other backend
failure. -/
inductive CacheErr
  | keyNotFound
  | other (msg : String)
deriving DecidableEq

/-- Go `error` values the engine produces or propagates.  `failedValidation`
is the `ErrFailedValidation` sentinel (`errors.New("validation failed")`);
`nilDeref` marks a nil-pointer dereference (a runtime panic in Go). -/
inductive GoErr
  | failedValidation
  | menuNotExist (name : String)
  | menuExist (name : String)
  | cacheFail (e : CacheErr)
  | nilDeref
  | other (msg : String)
deriving DecidableEq

/-- The `sessionResponse` struct (session_response source file). -/
structure SessionResponseS where
  response : String
  failed : Bool
  statusMessage : String
  menuName : String
  sessionId : String
deriving DecidableEq

/-- Go `&sessionResponse{}`, the zero value. -/
def emptySessionResponse : SessionResponseS :=
  { response := "", failed := false, statusMessage := "", menuName := "", sessionId := "" }

/-- The `ussdPayloadInternal` struct from payload.go, including the
unexported transient `skip` marker. -/
structure UssdPayloadInternal where
  SessionID : String
  ServiceCode : String
  Msisdn : String
  UssdParams : String
  UssdCurrentParam : String
  IsShortCut : Bool
  ValidationFailed : Bool
  Time : String
  skip : Bool
deriving DecidableEq

/-- The `menu` struct from the menu source file: graph links plus the
wrapped handler.  `generateMenuFn` returns the Go pair `(res, err)` with
both components nilable. -/
structure MenuS where
  MenuName : String
  PreviousMenu : String
  NextMenu : String
  ShortCut : String
  menuContent : List (String × String)
  generateMenuFn : UssdPayloadInternal → Option SessionResponseS × Option GoErr

/-- The `Options` struct fields the modelled operations consult. -/
structure OptionsS where
  AppName : String
  HomeMenu : String
  DefaultLanguage : String
  SessionDuration : Nat

/-- The `UssdApp` struct: home menu, registry map, registration order. -/
structure UssdAppS where
  homeMenu : String
  allmenus : List (String × MenuS)
  menus : List String
  opt : OptionsS

/-- The app value `NewUssdApp` builds after validating its options:
an empty registry bound to the options. -/
def newUssdApp (opt : OptionsS) : UssdAppS :=
  { homeMenu := opt.HomeMenu, allmenus := [], menus := [], opt := opt }

/-- Session cache entry field name `next_menu`. -/
def nextMenuKey : String := "next_menu"

/-- Session cache entry field name `current_menu`. -/
def currentMenuKey : String := "current_menu"

/-- Session cache entry field name `current_payload`. -/
def currentPayload : String := "current_payload"

/-- Session cache entry field name `language`. -/
def languageKey : String := "language"

/-- Go `app.sessionKey(payload)`:
`fmt.Sprintf("%s:sessions:%s:%s", appName, sessionId, msisdn)`. -/
def sessionKey (app : UssdAppS) (p : UssdPayloadInternal) : String :=
  app.opt.AppName ++ ":sessions:" ++ p.SessionID ++ ":" ++ p.Msisdn

/-- In-memory model of the external cache: hash store plus the log of
`Expire` calls (key and requested duration), in call order. -/
structure CacheState where
  maps : List (String × List (String × String))
  expires : List (String × Nat)
deriving DecidableEq

/-- The empty cache. -/
def emptyCache : CacheState := { maps := [], expires := [] }

/-- Cacher `GetMapField`: redis `HGET`, with `redis.Nil` (key or field
absent) mapped to `ErrKeyNotFound` by the redis backend. -/
def CacheState.getMapField (st : CacheState) (key field : String) : Except CacheErr String :=
  match lookupL st.maps key with
  | none => .error .keyNotFound
  | some m =>
    match lookupL m field with
    | none => .error .keyNotFound
    | some v => .ok v

/-- Cacher `SetMapField` for a single field/value pair: redis `HSET`,
creating the hash when absent. -/
def CacheState.setMapField (st : CacheState) (key field val : String) : CacheState :=
  match lookupL st.maps key with
  | none => { st with maps := insertL st.maps key [(field, val)] }
  | some m => { st with maps := insertL st.maps key (insertL m field val) }

/-- Cacher `SetMap`: redis `HSET` of several fields, merging into the
existing hash. -/
def CacheState.setMap (st : CacheState) (key : String) (fields : List (String × String)) : CacheState :=
  fields.foldl (fun s fv => s.setMapField key fv.1 fv.2) st

/-- Cacher `Expire`: recorded in the TTL log. -/
def CacheState.expire (st : CacheState) (key : String) (dur : Nat) : CacheState :=
  { st with expires := st.expires ++ [(key, dur)] }

/-- Number of `Expire` calls recorded for a key. -/
def CacheState.expireCount (st : CacheState) (key : String) : Nat :=
  (st.expires.filter (fun e => e.1 == key)).length

/-- Go `GetLanguage(ctx, payload)` from ussdapp.go, with the cache call
abstracted as a function parameter so that arbitrary backend failures are
covered: any error — `ErrKeyNotFound` or a genuine cache error — yields the
configured default language, and the function returns a plain string (no
error return exists in its signature). -/
def GetLanguage (app : UssdAppS)
    (cacheGet : String → String → Except CacheErr String)
    (p : UssdPayloadInternal) : String :=
  match cacheGet (sessionKey app p) languageKey with
  | .error _ => app.opt.DefaultLanguage
  | .ok lang => lang

/-- JSON values occurring in the payload object: strings and booleans. -/
inductive JVal
  | str (s : String)
  | bool (b : Bool)
deriving DecidableEq

/-- One field of a marshalled JSON object: dropped entirely when its
`omitempty` condition holds. -/
def jField (key : String) (v : JVal) (omitted : Prop) [Decidable omitted] : List (String × JVal) :=
  if omitted then [] else [(key, v)]

/-- Go `json.Marshal` of `ussdPayloadInternal`, at the JSON-object level:
every exported field has an `omitempty` tag, so zero values (empty string,
false) are dropped; the unexported `skip` field is never serialized. -/
def payloadToJson (d : UssdPayloadInternal) : List (String × JVal) :=
  jField "session_id" (.str d.SessionID) (d.SessionID = "") ++
  jField "service_code" (.str d.ServiceCode) (d.ServiceCode = "") ++
  jField "msisdn" (.str d.Msisdn) (d.Msisdn = "") ++
  jField "ussd_params" (.str d.UssdParams) (d.UssdParams = "") ++
  jField "ussd_current_param" (.str d.UssdCurrentParam) (d.UssdCurrentParam = "") ++
  jField "is_short_cut" (.bool d.IsShortCut) (d.IsShortCut = false) ++
  jField "validation_failed" (.bool d.ValidationFailed) (d.ValidationFailed = false) ++
  jField "time" (.str d.Time) (d.Time = "")

/-- Reading a string field out of a JSON object, with the Go zero value for
an absent or mistyped key. -/
def jStr (obj : List (String × JVal)) (key : String) : String :=
  match lookupL obj key with
  | some (.str s) => s
  | _ => ""

/-- Reading a boolean field out of a JSON object, with the Go zero value
for an absent or mistyped key. -/
def jBool (obj : List (String × JVal)) (key : String) : Bool :=
  match lookupL obj key with
  | some (.bool b) => b
  | _ => false

/-- Go `json.Unmarshal` into a fresh `ussdPayloadInternal`
(`UssdPayloadFromJSON`): absent fields keep their zero values, and the
unexported `skip` field is never populated. -/
def payloadFromJson (obj : List (String × JVal)) : UssdPayloadInternal :=
  { SessionID := jStr obj "session_id"
    ServiceCode := jStr obj "service_code"
    Msisdn := jStr obj "msisdn"
    UssdParams := jStr obj "ussd_params"
    UssdCurrentParam := jStr obj "ussd_current_param"
    IsShortCut := jBool obj "is_short_cut"
    ValidationFailed := jBool obj "validation_failed"
    Time := jStr obj "time"
    skip := false }

/-- A concrete textual rendering standing in for the `json.Marshal` byte
output stored under `current_payload`; the engine only ever stores and
reloads it, so only its dependence on the object matters here. -/
def renderJson (obj : List (String × JVal)) : String :=
  obj.foldl
    (fun acc kv =>
      acc ++ kv.1 ++ ":" ++ (match kv.2 with | .str s => s | .bool b => toString b) ++ ";")
    ""

/-- Go `payload.JSON()`: the marshalled snapshot as stored in the cache. -/
def encodePayload (p : UssdPayloadInternal) : String :=
  renderJson (payloadToJson p)

/-- Go `GenerateResponse` (menu source file) applied to the handler result
pair `(res, err)`: a `ValidationFailure` sentinel is absorbed into a failed
response with a defaulted status message and the menu's name stamped; any
other non-nil error propagates; a nil error passes `res` through. -/
def generateResponseCore (menuName : String)
    (r : Option SessionResponseS × Option GoErr) : Except GoErr (Option SessionResponseS) :=
  match r with
  | (res, none) => .ok res
  | (res, some .failedValidation) =>
    let res0 := res.getD emptySessionResponse
    .ok (some { res0 with
                failed := true
                statusMessage := firstVal [res0.statusMessage, "validation failed"]
                menuName := menuName })
  | (_, some e) => .error e

/-- Go `(m *menu).GenerateResponse(ctx, p)`: run the registered handler and
post-process its result. -/
def MenuS.GenerateResponse (m : MenuS) (p : UssdPayloadInternal) : Except GoErr (Option SessionResponseS) :=
  generateResponseCore m.MenuName (m.generateMenuFn p)

/-- Go `ValidateMenu(m)` from ussdapp.go: rejects a nil menu, an empty menu
name, an empty next menu; the previous-menu check is commented out in the
source.  Returns the error message, or `none` on success. -/
def ValidateMenu (mo : Option MenuS) : Option String :=
  match mo with
  | none => some "nil menu not allowed"
  | some m =>
    if m.MenuName = "" then some "missing menu name"
    else if m.NextMenu = "" then some ("next menu for " ++ m.MenuName ++ " is missing")
    else none

/-- Go `(app *UssdApp).AddMenu(m)`: validate, reject duplicates, then
register the menu under its name and record the name. -/
def AddMenu (app : UssdAppS) (mo : Option MenuS) : Except String UssdAppS :=
  match ValidateMenu mo with
  | some e => .error e
  | none =>
    match mo with
    | none => .error "nil menu not allowed"
    | some m =>
      if (lookupL app.allmenus m.MenuName).isSome then
        .error ("menu is registered: " ++ m.MenuName)
      else
        .ok { app with
              allmenus := app.allmenus ++ [(m.MenuName, m)]
              menus := app.menus ++ [m.MenuName] }

/-- The state of the caller's app after an `AddMenu` call: Go mutates the
registry only after every check has passed, so a failing call leaves the
app unchanged. -/
def addMenuStep (app : UssdAppS) (mo : Option MenuS) : UssdAppS :=
  match AddMenu app mo with
  | .ok a => a
  | .error _ => app

/-- Inner loop of Go `ValidateAppMenus(app)` over the registry entries: the
menu's own name must be registered (trivially true) and a non-empty
`NextMenu` must resolve; the previous-menu check is commented out in the
source. -/
def validateMenusAux (app : UssdAppS) : List (String × MenuS) → Except String Unit
  | [] => .ok ()
  | (_, m) :: rest =>
    if (lookupL app.allmenus m.MenuName).isNone then
      .error ("menu " ++ m.MenuName ++ " not registered")
    else if (lookupL app.allmenus m.NextMenu).isNone = true ∧ m.NextMenu ≠ "" then
      .error ("next menu " ++ m.NextMenu ++ " for " ++ m.MenuName ++ " menu is not registered")
    else validateMenusAux app rest

/-- Go `ValidateAppMenus(app)`. -/
def ValidateAppMenus (app : UssdAppS) : Except String Unit :=
  validateMenusAux app app.allmenus

/-- Go `SaveMenuAsCurrent(ctx, menu, payload)`: persist
`next_menu := menu.MenuName()` and `current_payload := payload.JSON()`
into the session hash (marshalling cannot fail in the model, and the
ideal cache write always succeeds). -/
def SaveMenuAsCurrent (app : UssdAppS) (st : CacheState) (menu : MenuS)
    (p : UssdPayloadInternal) : CacheState :=
  st.setMap (sessionKey app p) [(nextMenuKey, menu.MenuName), (currentPayload, encodePayload p)]

/-- Go `GetNextMenu(currentMenu, payload)`: resolve the declared next menu
in the registry. -/
def GetNextMenu (app : UssdAppS) (currentMenu : MenuS) : Except GoErr MenuS :=
  match lookupL app.allmenus currentMenu.NextMenu with
  | none => .error (.menuNotExist currentMenu.NextMenu)
  | some m => .ok m

/-- Go `UpdateNextMenu(ctx, payload, currMenu)`: a no-op when the payload
is validation-failed or carries the transient skip marker; otherwise save
the declared next menu as current and record `current_menu := currMenu`. -/
def UpdateNextMenu (app : UssdAppS) (st : CacheState) (p : UssdPayloadInternal)
    (currMenu : MenuS) : Except GoErr CacheState :=
  if p.ValidationFailed || p.skip then .ok st
  else
    match GetNextMenu app currMenu with
    | .error e => .error e
    | .ok m =>
      let st1 := SaveMenuAsCurrent app st m p
      .ok (st1.setMapField (sessionKey app p) currentMenuKey currMenu.MenuName)

/-- Go `ReplaceMenu(ctx, payload, menu)`: save the target as current,
generate its response, call `UpdateNextMenu` (before the skip marker is
set), then set the payload's skip marker and stamp the response with the
target's name.  Returns the response, the cache state and the mutated
payload; `sr.setMenu` on a nil response is a nil dereference. -/
def ReplaceMenu (app : UssdAppS) (st : CacheState) (p : UssdPayloadInternal)
    (menu : MenuS) : Except GoErr (SessionResponseS × CacheState × UssdPayloadInternal) :=
  let st1 := SaveMenuAsCurrent app st menu p
  match menu.GenerateResponse p with
  | .error e => .error e
  | .ok none => .error .nilDeref
  | .ok (some sr) =>
    match UpdateNextMenu app st1 p menu with
    | .error e => .error e
    | .ok st2 =>
      .ok ({ sr with menuName := menu.MenuName }, st2, { p with skip := true })

/-- Go `ReplaceMenuWithName(ctx, menuName, payload)`. -/
def ReplaceMenuWithName (app : UssdAppS) (st : CacheState) (menuName : String)
    (p : UssdPayloadInternal) : Except GoErr (SessionResponseS × CacheState × UssdPayloadInternal) :=
  match lookupL app.allmenus menuName with
  | none => .error (.menuNotExist menuName)
  | some menu => ReplaceMenu app st p menu

/-- Resolution step shared by the tail of Go `GetSessionMenu`: look the
fetched name up in the registry, defaulting to the home menu. -/
def resolveSessionMenu (app : UssdAppS) (res : String) (isNew : Bool) (st : CacheState) :
    Except GoErr (Option MenuS × Bool × CacheState) :=
  match lookupL app.allmenus res with
  | none => .ok (lookupL app.allmenus app.homeMenu, isNew, st)
  | some m => .ok (some m, isNew, st)

/-- Go `GetSessionMenu(ctx, payload)`: read `next_menu`; on
`ErrKeyNotFound` set the `new` marker, set the session TTL and flag the
session as new; on any other cache error fail; then resolve the fetched
menu name, defaulting to the home menu. -/
def GetSessionMenu (app : UssdAppS) (st : CacheState) (p : UssdPayloadInternal) :
    Except GoErr (Option MenuS × Bool × CacheState) :=
  let key := sessionKey app p
  match st.getMapField key nextMenuKey with
  | .ok res => resolveSessionMenu app res false st
  | .error .keyNotFound =>
    let st1 := st.setMapField key "new" "true"
    let st2 := st1.expire key app.opt.SessionDuration
    resolveSessionMenu app "" true st2
  | .error (.other msg) => .error (.cacheFail (.other msg))

/-- The `incomingUssd` struct from payload.go: the POST JSON body shape. -/
structure IncomingUssd where
  Msisdn : String
  SessionID : String
  ServiceCode : String
  UssdString : String
deriving DecidableEq

/-- Go `getQueryVal(params, keys...)` from payload.go: the first key with a
non-empty value, query-unescaped (falling back to the raw value when
unescaping fails). -/
def getQueryVal (params : List (String × String)) : List String → String
  | [] => ""
  | key :: rest =>
    let v := (lookupL params key).getD ""
    if v ≠ "" then
      match queryUnescape v with
      | none => v
      | some v2 => v2
    else getQueryVal params rest

/-- The GET branch of Go `UssdPayloadFromRequest`: query parameters are
unescaped, the dial string is split on `*`, and the current param is the
trimmed last token. -/
def payloadFromGET (params : List (String × String)) : UssdPayloadInternal :=
  let ussdRaw := getQueryVal params ["USSD_PARAMS", "USSD_STRING", "ussd-string", "ussd_string"]
  let ussdParams := goSplitStar ussdRaw
  let ussdParams := if ussdParams = [] then [""] else ussdParams
  { SessionID := getQueryVal params ["SESSION_ID", "session-id", "session_id", "session"]
    ServiceCode := getQueryVal params ["SERVICE_CODE", "ORIG", "service-code", "service_code"]
    Msisdn := getQueryVal params ["DEST", "MSISDN", "msisdn"]
    UssdParams := ussdRaw
    UssdCurrentParam := goTrimSpace (ussdParams.getLastD "")
    IsShortCut := false
    ValidationFailed := false
    Time := ""
    skip := false }

/-- The POST branch of Go `UssdPayloadFromRequest`: the body is decoded,
the dial string is unescaped only for splitting (the raw string is kept in
`UssdParams`), and the current param is the untrimmed last token. -/
def payloadFromPOST (pb : IncomingUssd) : UssdPayloadInternal :=
  let ussdStr :=
    match queryUnescape pb.UssdString with
    | none => pb.UssdString
    | some v => v
  let ussdParams := goSplitStar ussdStr
  let ussdParams := if ussdParams = [] then [""] else ussdParams
  { SessionID := pb.SessionID
    ServiceCode := pb.ServiceCode
    Msisdn := pb.Msisdn
    UssdParams := pb.UssdString
    UssdCurrentParam := ussdParams.getLastD ""
    IsShortCut := false
    ValidationFailed := false
    Time := ""
    skip := false }

/-- Go `WriteUSSDResponse(w, up, sr)`: trim the body; when the response
failed or the payload is validation-failed, insert the status-message
banner after a `CON`/`END` prefix (Go `res[4:]`, a panic — `none` — when
the trimmed body is shorter than 4 bytes), pass `UPR` through, or prepend
a fresh `CON` banner line; finally force a `CON ` prefix when none of the
three prefixes is present.  The result is the text written to the wire. -/
def WriteUSSDResponse (up : UssdPayloadInternal) (sr : SessionResponseS) : Option String :=
  let res := goTrimSpace sr.response
  let res1 : Option String :=
    if sr.failed || up.ValidationFailed then
      let valErr := sr.statusMessage
      if "CON".data.isPrefixOf res.data then
        (goSliceFrom res 4).map (fun t => "CON " ++ valErr ++ "\n" ++ t)
      else if "END".data.isPrefixOf res.data then
        (goSliceFrom res 4).map (fun t => "END " ++ valErr ++ "\n" ++ t)
      else if "UPR".data.isPrefixOf res.data then some res
      else some ("CON " ++ valErr ++ "\n" ++ res)
    else some res
  res1.map (fun r =>
    if !("CON ".data.isPrefixOf r.data) && !("UPR".data.isPrefixOf r.data)
        && !("END".data.isPrefixOf r.data) then
      "CON " ++ r
    else r)

/-- The audit rows (`SessionRequest` gorm model). -/
structure SessionRequestS where
  SessionID : String
  Msisdn : String
  MenuName : String
  USSDParams : String
  UserInput : String
  Data : String
  Succeeded : Bool
  StatusMessage : String
  CreatedAt : Nat
deriving DecidableEq

/-- The spill directory and file state the batch writer touches. -/
structure FsState where
  dirExists : Bool
  files : List (String × List SessionRequestS)
deriving DecidableEq

/-- Go `fmt.Sprintf("%s/bulk-%d.json", failedBulkDir, time.Now().UnixNano())`. -/
def spillFileName (nowNano : Nat) : String :=
  "failed-bulk-inserts/bulk-" ++ toString nowNano ++ ".json"

/-- Result of one flush attempt of the batch writer: the in-memory batch
after the deferred `logs = logs[0:0]`, the file-system state, and whether
the callback reported an error. -/
structure FlushResult where
  logs : List SessionRequestS
  fs : FsState
  failedInsert : Bool
deriving DecidableEq

/-- The `callback` closure of Go `saveLogsWorker`, for a given outcome of
the transactional bulk insert (the database is external): on success the
transaction commits; on failure the spill directory is created if absent,
the batch is encoded into a timestamped file, and the transaction rolls
back.  The deferred block clears the in-memory batch on every path.
File-system operations themselves are modelled as succeeding. -/
def saveLogsFlush (logs : List SessionRequestS) (fs : FsState) (insertOk : Bool)
    (nowNano : Nat) : FlushResult :=
  if insertOk then
    { logs := [], fs := fs, failedInsert := false }
  else
    let fs1 := if fs.dirExists then fs else { fs with dirExists := true }
    let fs2 := { fs1 with files := insertL fs1.files (spillFileName nowNano) logs }
    { logs := [], fs := fs2, failedInsert := true }

/-- Registry invariant maintained by `AddMenu`: keys are distinct menu
names, each entry is stored under its own non-empty name, and each entry
declares a non-empty next menu. -/
def RegistryInv (app : UssdAppS) : Prop :=
  (app.allmenus.map Prod.fst).Nodup ∧
  ∀ q ∈ app.allmenus, q.1 = q.2.MenuName ∧ q.2.MenuName ≠ "" ∧ q.2.NextMenu ≠ ""

/-- A handler that renders fixed text and never fails, as the happy path
of an application handler built on `ExecuteMenuArgs`. -/
def okHandler (resp : String) : UssdPayloadInternal → Option SessionResponseS × Option GoErr :=
  fun _ => (some { emptySessionResponse with response := resp }, none)

/-- Demo options for the concrete scenarios. -/
def optDemo : OptionsS :=
  { AppName := "demo", HomeMenu := "A", DefaultLanguage := "ENGLISH", SessionDuration := 300 }

/-- Demo menu `A`, declared next menu `B`. -/
def menuA : MenuS :=
  { MenuName := "A", PreviousMenu := "", NextMenu := "B", ShortCut := ""
    menuContent := [], generateMenuFn := okHandler "CON A" }

/-- Demo menu `B`, declared next menu `C`. -/
def menuB : MenuS :=
  { MenuName := "B", PreviousMenu := "A", NextMenu := "C", ShortCut := ""
    menuContent := [], generateMenuFn := okHandler "CON B" }

/-- Demo menu `C`, declared next menu `A`. -/
def menuC : MenuS :=
  { MenuName := "C", PreviousMenu := "B", NextMenu := "A", ShortCut := ""
    menuContent := [], generateMenuFn := okHandler "CON C" }

/-- The response `menuB`'s handler produces. -/
def srB : SessionResponseS := { emptySessionResponse with response := "CON B" }

/-- Demo app with menus `A`, `B`, `C` registered through `AddMenu`. -/
def appABC : UssdAppS :=
  [some menuA, some menuB, some menuC].foldl addMenuStep (newUssdApp optDemo)

/-- A fresh inbound payload for the demo session. -/
def pDemo : UssdPayloadInternal :=
  { SessionID := "s1", ServiceCode := "c1", Msisdn := "254700000001"
    UssdParams := "", UssdCurrentParam := "", IsShortCut := false
    ValidationFailed := false, Time := "", skip := false }

/-- The `next_menu` session field observed after `ReplaceMenu` to target
`B` followed immediately by the caller's `UpdateNextMenu`, on a fresh
session. -/
def nextMenuFieldAfterReplaceUpdate : Except CacheErr String :=
  match ReplaceMenu appABC emptyCache pDemo menuB with
  | .ok (_, st2, p2) =>
    match UpdateNextMenu appABC st2 p2 menuB with
    | .ok st3 => st3.getMapField (sessionKey appABC pDemo) nextMenuKey
    | .error _ => .error (.other "UpdateNextMenu failed")
  | .error _ => .error (.other "ReplaceMenu failed")

/-- The number of `Expire` calls recorded for the demo session key after
two consecutive `GetSessionMenu` calls on an initially cold cache. -/
def expireCountAfterTwoGets : Nat :=
  match GetSessionMenu appABC emptyCache pDemo with
  | .ok (_, _, st1) =>
    match GetSessionMenu appABC st1 pDemo with
    | .ok (_, _, st2) => st2.expireCount (sessionKey appABC pDemo)
    | .error _ => 0
  | .error _ => 0

/-- A cache state for the demo session in which a menu has already been
saved as current (`next_menu` present). -/
def stWarm : CacheState :=
  emptyCache.setMapField (sessionKey appABC pDemo) nextMenuKey "A"

/-- A menu whose previous-menu link names an unregistered menu; its other
links are self-consistent, so `AddMenu` and `ValidateAppMenus` accept it. -/
def menuGhost : MenuS :=
  { MenuName := "G", PreviousMenu := "GHOST", NextMenu := "G", ShortCut := ""
    menuContent := [], generateMenuFn := okHandler "CON G" }

/-- App holding only `menuGhost`, registered through `AddMenu`. -/
def appGhost : UssdAppS := [some menuGhost].foldl addMenuStep (newUssdApp optDemo)

/-- A menu whose handler reports the `ValidationFailure` sentinel with a
nil response and no status message. -/
def menuVal : MenuS :=
  { MenuName := "VAL", PreviousMenu := "", NextMenu := "A", ShortCut := ""
    menuContent := [], generateMenuFn := fun _ => (none, some .failedValidation) }

/-- A menu whose handler fails with an ordinary (non-sentinel) error. -/
def menuOther : MenuS :=
  { MenuName := "OTH", PreviousMenu := "", NextMenu := "A", ShortCut := ""
    menuContent := [], generateMenuFn := fun _ => (none, some (.other "db down")) }

/-- A cache whose map reads fail with a genuine backend error. -/
def failCacher : String → String → Except CacheErr String :=
  fun _ _ => .error (.other "redis: connection refused")

/-- A cache whose map reads fail with `ErrKeyNotFound`. -/
def missCacher : String → String → Except CacheErr String :=
  fun _ _ => .error .keyNotFound

/-- GET query parameters carrying a dial string with a trailing space. -/
def cxParams : List (String × String) :=
  [("SESSION_ID", "s1"), ("SERVICE_CODE", "c1"), ("DEST", "254700000001"),
   ("USSD_PARAMS", "1*2 ")]

/-- The POST body carrying the same four values as `cxParams`. -/
def cxPost : IncomingUssd :=
  { Msisdn := "254700000001", SessionID := "s1", ServiceCode := "c1", UssdString := "1*2 " }

/-- A failed response whose body already carries a `CON` prefix, from the
spec's concrete framing example. -/
def srPick : SessionResponseS :=
  { response := "CON pick option", failed := true, statusMessage := "bad input"
    menuName := "", sessionId := "" }

/-- A failed response whose body carries a `CON` prefix and trailing
whitespace. -/
def srPad : SessionResponseS :=
  { response := "CON hi ", failed := true, statusMessage := "m"
    menuName := "", sessionId := "" }

/-- A failed response whose trimmed body is the bare three-letter `CON`
prefix. -/
def srBare : SessionResponseS :=
  { response := "CON", failed := true, statusMessage := "m"
    menuName := "", sessionId := "" }

/-- One concrete audit row. -/
def reqW : SessionRequestS :=
  { SessionID := "s1", Msisdn := "254700000001", MenuName := "A", USSDParams := "1*2"
    UserInput := "2", Data := "", Succeeded := true, StatusMessage := "", CreatedAt := 11 }

/-- A file-system state in which the spill directory does not yet exist. -/
def fsW : FsState := { dirExists := false, files := [] }

theorem lookupL_insertL_self {α : Type} (l : List (String × α)) (k : String) (v : α) :
    lookupL (insertL l k v) k = some v := by
  induction l with
  | nil => simp [insertL, lookupL]
  | cons kv rest ih =>
    obtain ⟨k', w⟩ := kv
    by_cases h : k' = k <;> simp [insertL, lookupL, h, ih]

theorem lookupL_insertL_ne {α : Type} (l : List (String × α)) (k k' : String) (v : α)
    (h : k ≠ k') : lookupL (insertL l k v) k' = lookupL l k' := by
  induction l with
  | nil => simp [insertL, lookupL, h]
  | cons kv rest ih =>
    obtain ⟨k0, w⟩ := kv
    by_cases h0 : k0 = k
    · subst h0
      simp [insertL, lookupL, h]
    · simp [insertL, lookupL, h0, ih]

theorem lookupL_eq_none_iff {α : Type} (l : List (String × α)) (k : String) :
    lookupL l k = none ↔ k ∉ l.map Prod.fst := by
  induction l with
  | nil => simp [lookupL]
  | cons kv rest ih =>
    obtain ⟨k0, w⟩ := kv
    by_cases h : k0 = k
    · subst h
      simp [lookupL]
    · simp [lookupL, h, ih, Ne.symm h]

theorem getMapField_setMapField_self (st : CacheState) (key f v : String) :
    (st.setMapField key f v).getMapField key f = .ok v := by
  unfold CacheState.setMapField CacheState.getMapField
  cases h : lookupL st.maps key <;>
    simp [h, lookupL_insertL_self, lookupL]

theorem getMapField_setMapField_ne (st : CacheState) (key f f' v : String) (h : f ≠ f') :
    (st.setMapField key f v).getMapField key f' = st.getMapField key f' := by
  unfold CacheState.setMapField CacheState.getMapField
  cases hm : lookupL st.maps key <;>
    simp [hm, lookupL_insertL_self, lookupL_insertL_ne _ _ _ _ h, lookupL, h]

theorem setMapField_expires (st : CacheState) (key f v : String) :
    (st.setMapField key f v).expires = st.expires := by
  unfold CacheState.setMapField
  cases lookupL st.maps key <;> rfl

theorem expire_expireCount_self (st : CacheState) (key : String) (d : Nat) :
    (st.expire key d).expireCount key = st.expireCount key + 1 := by
  simp [CacheState.expire, CacheState.expireCount, List.filter_append]

/-- C10: `GetLanguage` is total — its Go signature returns a bare string,
with no error — and on any failing cache read, whether the `language`
field is simply absent (`ErrKeyNotFound`) or the backend reports a genuine
error, it falls back to the configured default language; a successful read
is returned unchanged. -/
theorem getLanguage_total_default (app : UssdAppS)
    (cacheGet : String → String → Except CacheErr String) (p : UssdPayloadInternal) :
    (∀ e, cacheGet (sessionKey app p) languageKey = .error e →
      GetLanguage app cacheGet p = app.opt.DefaultLanguage) ∧
    (∀ lang, cacheGet (sessionKey app p) languageKey = .ok lang →
      GetLanguage app cacheGet p = lang) := by
  constructor <;> intro x h <;> simp [GetLanguage, h]

/-- Witness for `getLanguage_total_default`: both a genuine backend error
and an absent field yield the configured default language. -/
theorem getLanguage_total_default_witness :
    GetLanguage appABC failCacher pDemo = "ENGLISH" ∧
    GetLanguage appABC missCacher pDemo = "ENGLISH" :=
  ⟨(getLanguage_total_default appABC failCacher pDemo).1 (.other "redis: connection refused") rfl,
   (getLanguage_total_default appABC missCacher pDemo).1 .keyNotFound rfl⟩

/-- C2: when a menu's handler reports the `ValidationFailure` sentinel,
`GenerateResponse` absorbs it: it returns a non-nil failed response with a
non-empty status message — the handler's own message when set, else the
sentinel's text — and the invoking menu's name, together with a nil error;
any other non-nil handler error is propagated verbatim. -/
theorem generateResponse_validation_absorbed (m : MenuS) (p : UssdPayloadInternal) :
    (∀ res, m.generateMenuFn p = (res, some .failedValidation) →
      ∃ r, m.GenerateResponse p = .ok (some r) ∧ r.failed = true ∧
        r.statusMessage = firstVal [(res.getD emptySessionResponse).statusMessage, "validation failed"] ∧
        r.statusMessage ≠ "" ∧ r.menuName = m.MenuName) ∧
    (∀ res e, e ≠ .failedValidation → m.generateMenuFn p = (res, some e) →
      m.GenerateResponse p = .error e) := by
  constructor
  · intro res h
    refine ⟨{ (res.getD emptySessionResponse) with
              failed := true
              statusMessage := firstVal [(res.getD emptySessionResponse).statusMessage, "validation failed"]
              menuName := m.MenuName }, ?_, rfl, rfl, ?_, rfl⟩
    · show generateResponseCore m.MenuName (m.generateMenuFn p) = _
      rw [h]
      rfl
    · show firstVal [(res.getD emptySessionResponse).statusMessage, "validation failed"] ≠ ""
      by_cases hs : (res.getD emptySessionResponse).statusMessage = "" <;>
        simp [firstVal, hs]
  · intro res e he h
    show generateResponseCore m.MenuName (m.generateMenuFn p) = .error e
    rw [h]
    cases e <;> first | exact absurd rfl he | rfl

/-- Witness for `generateResponse_validation_absorbed`: a handler with a
nil response and no message yields the defaulted failed response, and a
handler failing with an ordinary error propagates it. -/
theorem generateResponse_validation_absorbed_witness :
    (∃ r, menuVal.GenerateResponse pDemo = .ok (some r) ∧ r.failed = true ∧
      r.statusMessage = firstVal [(Option.getD none emptySessionResponse).statusMessage, "validation failed"] ∧
      r.statusMessage ≠ "" ∧ r.menuName = menuVal.MenuName) ∧
    menuOther.GenerateResponse pDemo = .error (.other "db down") :=
  ⟨(generateResponse_validation_absorbed menuVal pDemo).1 none rfl,
   (generateResponse_validation_absorbed menuOther pDemo).2 none (.other "db down")
     (by decide) rfl⟩

/-- C8: every flush attempt of the audit batch writer clears the in-memory
batch — the deferred reset runs whether the transactional insert succeeded
or failed — and on insert failure the batch has first been serialized to
the timestamped file in the (lazily created) spill directory. -/
theorem saveLogsFlush_clears_and_spills (logs : List SessionRequestS) (fs : FsState)
    (insertOk : Bool) (now : Nat) :
    (saveLogsFlush logs fs insertOk now).logs = [] ∧
    (insertOk = false →
      (saveLogsFlush logs fs insertOk now).fs.dirExists = true ∧
      lookupL (saveLogsFlush logs fs insertOk now).fs.files (spillFileName now) = some logs) := by
  cases insertOk
  · refine ⟨rfl, fun _ => ⟨?_, ?_⟩⟩
    · unfold saveLogsFlush
      cases h : fs.dirExists <;> simp [h]
    · unfold saveLogsFlush
      cases h : fs.dirExists <;> simp [h, lookupL_insertL_self]
  · exact ⟨rfl, fun h => by cases h⟩

/-- Witness for `saveLogsFlush_clears_and_spills`: a failed insert of one
row clears the batch, creates the spill directory and writes the row to
the timestamped spill file. -/
theorem saveLogsFlush_clears_and_spills_witness :
    (saveLogsFlush [reqW] fsW false 7).logs = [] ∧
    (saveLogsFlush [reqW] fsW false 7).fs.dirExists = true ∧
    lookupL (saveLogsFlush [reqW] fsW false 7).fs.files (spillFileName 7) = some [reqW] :=
  ⟨(saveLogsFlush_clears_and_spills [reqW] fsW false 7).1,
   ((saveLogsFlush_clears_and_spills [reqW] fsW false 7).2 rfl).1,
   ((saveLogsFlush_clears_and_spills [reqW] fsW false 7).2 rfl).2⟩

theorem addMenuStep_eq_of_error {app : UssdAppS} {mo : Option MenuS} {e : String}
    (h : AddMenu app mo = .error e) : addMenuStep app mo = app := by
  unfold addMenuStep
  rw [h]

theorem addMenuStep_inv (app : UssdAppS) (mo : Option MenuS) (h : RegistryInv app) :
    RegistryInv (addMenuStep app mo) := by
  unfold addMenuStep
  cases hA : AddMenu app mo with
  | error e => exact h
  | ok a =>
    unfold AddMenu ValidateMenu at hA
    cases mo with
    | none => simp at hA
    | some m =>
      by_cases h1 : m.MenuName = ""
      · simp [h1] at hA
      · by_cases h2 : m.NextMenu = ""
        · simp [h1, h2] at hA
        · by_cases h3 : (lookupL app.allmenus m.MenuName).isSome
          · simp [h1, h2, h3] at hA
          · simp [h1, h2, h3] at hA
            subst hA
            have hnone : lookupL app.allmenus m.MenuName = none :=
              Option.not_isSome_iff_eq_none.1 h3
            have hnotin : m.MenuName ∉ app.allmenus.map Prod.fst :=
              (lookupL_eq_none_iff _ _).1 hnone
            constructor
            · rw [List.map_append]
              exact List.Nodup.append h.1 (List.nodup_singleton _)
                (List.disjoint_singleton.2 hnotin)
            · intro q hq
              rcases List.mem_append.1 hq with hq | hq
              · exact h.2 q hq
              · simp at hq
                subst hq
                exact ⟨rfl, h1, h2⟩

/-- C9: `AddMenu` rejects (with an error, leaving the caller's registry
unchanged) a nil menu, an empty menu name, an empty declared next menu,
and a duplicate name; consequently, after any sequence of `AddMenu` calls
starting from a fresh app, every registered menu sits under its own
non-empty name, names are unique, and every registered menu declares a
non-empty next menu. -/
theorem addMenu_rejects_and_registry_invariant :
    (∀ (app : UssdAppS) (mo : Option MenuS),
      (mo = none ∨ ∃ m, mo = some m ∧
        (m.MenuName = "" ∨ m.NextMenu = "" ∨ (lookupL app.allmenus m.MenuName).isSome = true)) →
      (∃ e, AddMenu app mo = .error e) ∧ addMenuStep app mo = app) ∧
    (∀ (opt : OptionsS) (ms : List (Option MenuS)),
      RegistryInv (ms.foldl addMenuStep (newUssdApp opt))) := by
  constructor
  · rintro app mo (rfl | ⟨m, rfl, hm⟩)
    · exact ⟨⟨"nil menu not allowed", rfl⟩, rfl⟩
    · have hErr : ∃ e, AddMenu app (some m) = .error e := by
        by_cases h1 : m.MenuName = ""
        · exact ⟨"missing menu name", by simp [AddMenu, ValidateMenu, h1]⟩
        · by_cases h2 : m.NextMenu = ""
          · exact ⟨"next menu for " ++ m.MenuName ++ " is missing",
              by simp [AddMenu, ValidateMenu, h1, h2]⟩
          · rcases hm with h | h | h
            · exact absurd h h1
            · exact absurd h h2
            · exact ⟨"menu is registered: " ++ m.MenuName,
                by simp [AddMenu, ValidateMenu, h1, h2, h]⟩
      obtain ⟨e, he⟩ := hErr
      exact ⟨⟨e, he⟩, addMenuStep_eq_of_error he⟩
  · intro opt ms
    have hbase : RegistryInv (newUssdApp opt) := by
      constructor
      · simp [newUssdApp]
      · intro q hq
        simp [newUssdApp] at hq
    have haux : ∀ (l : List (Option MenuS)) (app : UssdAppS), RegistryInv app →
        RegistryInv (l.foldl addMenuStep app) := by
      intro l
      induction l with
      | nil => intro app h; exact h
      | cons mo rest ih => intro app h; exact ih _ (addMenuStep_inv app mo h)
    exact haux ms _ hbase

/-- Witness for `addMenu_rejects_and_registry_invariant`: adding a nil
menu to a fresh app fails and leaves the app unchanged, and the demo app
built from three `AddMenu` calls satisfies the registry invariant. -/
theorem addMenu_rejects_and_registry_invariant_witness :
    ((∃ e, AddMenu (newUssdApp optDemo) none = .error e) ∧
      addMenuStep (newUssdApp optDemo) none = newUssdApp optDemo) ∧
    RegistryInv appABC :=
  ⟨addMenu_rejects_and_registry_invariant.1 (newUssdApp optDemo) none (Or.inl rfl),
   addMenu_rejects_and_registry_invariant.2 optDemo [some menuA, some menuB, some menuC]⟩

/-- C4 (amended): when `ValidateAppMenus` returns nil, every registered
menu's non-empty declared next menu resolves to a registered menu; the
previous-menu references are not checked (that check is commented out in
the source), so they enjoy no such guarantee. -/
theorem validateAppMenus_next_resolves (app : UssdAppS)
    (h : ValidateAppMenus app = .ok ()) :
    ∀ q ∈ app.allmenus, q.2.NextMenu ≠ "" →
      (lookupL app.allmenus q.2.NextMenu).isSome = true := by
  have haux : ∀ l, validateMenusAux app l = .ok () →
      ∀ q ∈ l, q.2.NextMenu ≠ "" → (lookupL app.allmenus q.2.NextMenu).isSome = true := by
    intro l
    induction l with
    | nil =>
      intro _ q hq
      cases hq
    | cons kv rest ih =>
      intro hv q hq hne
      obtain ⟨k0, m0⟩ := kv
      unfold validateMenusAux at hv
      by_cases hc1 : (lookupL app.allmenus m0.MenuName).isNone
      · rw [if_pos hc1] at hv
        cases hv
      · rw [if_neg hc1] at hv
        by_cases hc2 : (lookupL app.allmenus m0.NextMenu).isNone = true ∧ m0.NextMenu ≠ ""
        · rw [if_pos hc2] at hv
          cases hv
        · rw [if_neg hc2] at hv
          rcases List.mem_cons.1 hq with rfl | hq'
          · cases hl : lookupL app.allmenus m0.NextMenu with
            | none => exact absurd ⟨by simp [hl], hne⟩ hc2
            | some _ => simp
          · exact ih hv q hq' hne
  exact haux app.allmenus h

/-- Witness for `validateAppMenus_next_resolves`: in the validated demo
app, menu `B`'s declared next menu resolves. -/
theorem validateAppMenus_next_resolves_witness :
    (lookupL appABC.allmenus menuB.NextMenu).isSome = true :=
  validateAppMenus_next_resolves appABC rfl ("B", menuB)
    (List.mem_cons_of_mem _ (List.mem_cons_self _ _)) (by decide)

/-- C4 counterexample: `appGhost` passes `ValidateAppMenus`, yet its only
menu's non-empty previous-menu reference `GHOST` does not resolve to any
registered menu — validation does not cover previous-menu references. -/
theorem validateAppMenus_counterexample :
    ValidateAppMenus appGhost = .ok () ∧
    lookupL appGhost.allmenus "G" = some menuGhost ∧
    menuGhost.PreviousMenu = "GHOST" ∧ menuGhost.PreviousMenu ≠ "" ∧
    lookupL appGhost.allmenus "GHOST" = none :=
  ⟨rfl, rfl, rfl, by decide, rfl⟩

/-- C3 (amended): on a cold cache (`next_menu` read fails with
`ErrKeyNotFound`) `GetSessionMenu` returns the configured home menu with
`isNew = true`, initializes the session entry (`new := "true"`) and
records exactly one additional TTL (`Expire`) call; when the session entry
already has `next_menu` (that is, once some menu has been saved as
current) the call leaves the cache state — and hence the TTL — untouched.
The TTL is keyed to the presence of `next_menu`, not to the session's
first observation: see the companion counterexample. -/
theorem getSessionMenu_cold_and_warm (app : UssdAppS) (st : CacheState)
    (p : UssdPayloadInternal) (hempty : lookupL app.allmenus "" = none) :
    (st.getMapField (sessionKey app p) nextMenuKey = .error .keyNotFound →
      GetSessionMenu app st p =
        .ok (lookupL app.allmenus app.homeMenu, true,
          (st.setMapField (sessionKey app p) "new" "true").expire (sessionKey app p)
            app.opt.SessionDuration) ∧
      ((st.setMapField (sessionKey app p) "new" "true").expire (sessionKey app p)
          app.opt.SessionDuration).expireCount (sessionKey app p) =
        st.expireCount (sessionKey app p) + 1) ∧
    (∀ v, st.getMapField (sessionKey app p) nextMenuKey = .ok v →
      ∃ m, GetSessionMenu app st p = .ok (m, false, st)) := by
  constructor
  · intro h
    constructor
    · simp [GetSessionMenu, resolveSessionMenu, h, hempty]
    · rw [expire_expireCount_self]
      have hc : (st.setMapField (sessionKey app p) "new" "true").expireCount
          (sessionKey app p) = st.expireCount (sessionKey app p) := by
        unfold CacheState.expireCount
        rw [setMapField_expires]
      rw [hc]
  · intro v h
    cases hv : lookupL app.allmenus v with
    | none =>
      exact ⟨lookupL app.allmenus app.homeMenu,
        by simp [GetSessionMenu, resolveSessionMenu, h, hv]⟩
    | some mm =>
      exact ⟨some mm, by simp [GetSessionMenu, resolveSessionMenu, h, hv]⟩

/-- Witness for `getSessionMenu_cold_and_warm`: the demo app on an empty
cache takes the cold path and records one TTL call, and on a warmed cache
(`next_menu` present) returns with the state unchanged. -/
theorem getSessionMenu_cold_and_warm_witness :
    (GetSessionMenu appABC emptyCache pDemo =
      .ok (lookupL appABC.allmenus appABC.homeMenu, true,
        (emptyCache.setMapField (sessionKey appABC pDemo) "new" "true").expire
          (sessionKey appABC pDemo) appABC.opt.SessionDuration) ∧
      ((emptyCache.setMapField (sessionKey appABC pDemo) "new" "true").expire
          (sessionKey appABC pDemo) appABC.opt.SessionDuration).expireCount
          (sessionKey appABC pDemo) =
        emptyCache.expireCount (sessionKey appABC pDemo) + 1) ∧
    (∃ m, GetSessionMenu appABC stWarm pDemo = .ok (m, false, stWarm)) :=
  ⟨(getSessionMenu_cold_and_warm appABC emptyCache pDemo rfl).1 rfl,
   (getSessionMenu_cold_and_warm appABC stWarm pDemo rfl).2 "A"
     (getMapField_setMapField_self emptyCache (sessionKey appABC pDemo) nextMenuKey "A")⟩

/-- C3 counterexample: two consecutive `GetSessionMenu` calls for the same
fresh session — with no menu saved as current in between — record two
`Expire` calls, refuting "the TTL is set exactly once per session": the
second call still finds `next_menu` absent and re-sets the TTL. -/
theorem getSessionMenu_ttl_counterexample :
    expireCountAfterTwoGets = 2 ∧ expireCountAfterTwoGets ≠ 1 :=
  ⟨rfl, by decide⟩

/-- C1 (amended): `ReplaceMenu` itself calls `UpdateNextMenu` before it
sets the transient skip marker, so after `ReplaceMenu` the session's
`next_menu` field holds the name of the target's own declared next menu
(not the target's name); the target's name is returned in the response and
saved under `current_menu`.  The skip marker set on the returned payload
makes the caller's subsequent `UpdateNextMenu` a no-op, leaving the cache
state unchanged. -/
theorem replaceMenu_advances_declared_next (app : UssdAppS) (st : CacheState)
    (p : UssdPayloadInternal) (target nextM : MenuS) (sr : SessionResponseS)
    (hnext : lookupL app.allmenus target.NextMenu = some nextM)
    (hhandler : target.generateMenuFn p = (some sr, none))
    (hskip : p.skip = false) (hvf : p.ValidationFailed = false) :
    ∃ st2,
      ReplaceMenu app st p target =
        .ok ({ sr with menuName := target.MenuName }, st2, { p with skip := true }) ∧
      st2.getMapField (sessionKey app p) nextMenuKey = .ok nextM.MenuName ∧
      UpdateNextMenu app st2 { p with skip := true } target = .ok st2 := by
  refine ⟨(SaveMenuAsCurrent app (SaveMenuAsCurrent app st target p) nextM p).setMapField
      (sessionKey app p) currentMenuKey target.MenuName, ?_, ?_, ?_⟩
  · simp [ReplaceMenu, MenuS.GenerateResponse, generateResponseCore, hhandler,
      UpdateNextMenu, hskip, hvf, GetNextMenu, hnext]
  · unfold SaveMenuAsCurrent CacheState.setMap
    simp only [List.foldl]
    rw [getMapField_setMapField_ne _ _ _ _ _ (by decide),
        getMapField_setMapField_ne _ _ _ _ _ (by decide),
        getMapField_setMapField_self]
  · simp [UpdateNextMenu]

/-- Witness for `replaceMenu_advances_declared_next`: jumping to demo menu
`B` (declared next menu `C`) on a fresh session ends with `next_menu`
equal to `C` and a skip-suppressed second advance. -/
theorem replaceMenu_advances_declared_next_witness :
    ∃ st2,
      ReplaceMenu appABC emptyCache pDemo menuB =
        .ok ({ srB with menuName := menuB.MenuName }, st2, { pDemo with skip := true }) ∧
      st2.getMapField (sessionKey appABC pDemo) nextMenuKey = .ok menuC.MenuName ∧
      UpdateNextMenu appABC st2 { pDemo with skip := true } menuB = .ok st2 :=
  replaceMenu_advances_declared_next appABC emptyCache pDemo menuB menuC srB rfl rfl rfl rfl

/-- C1 counterexample: on a fresh session of the demo app, `ReplaceMenu`
to target `B` followed immediately by `UpdateNextMenu` leaves the
session's `next_menu` field equal to `"C"` — `B`'s own declared next
menu — and not to the target name `"B"` the claim requires. -/
theorem replaceMenu_nextMenu_counterexample :
    nextMenuFieldAfterReplaceUpdate = .ok "C" ∧
    nextMenuFieldAfterReplaceUpdate ≠ .ok "B" := by
  refine ⟨rfl, fun hcontra => ?_⟩
  rw [show nextMenuFieldAfterReplaceUpdate = Except.ok "C" from rfl] at hcontra
  exact absurd (Except.ok.inj hcontra) (by decide)


theorem lookupL_jField_ne (k k' : String) (v : JVal) (b : Prop) [Decidable b]
    (rest : List (String × JVal)) (h : k ≠ k') :
    lookupL (jField k v b ++ rest) k' = lookupL rest k' := by
  unfold jField
  split <;> simp [lookupL, h]

theorem lookupL_jField_last_ne (k k' : String) (v : JVal) (b : Prop) [Decidable b]
    (h : k ≠ k') : lookupL (jField k v b) k' = none := by
  unfold jField
  split <;> simp [lookupL, h]

theorem lookupL_jField_self (k : String) (v : JVal) (b : Prop) [Decidable b]
    (rest : List (String × JVal)) :
    lookupL (jField k v b ++ rest) k = if b then lookupL rest k else some v := by
  unfold jField
  split <;> simp_all [lookupL]

theorem lookupL_jField_last_self (k : String) (v : JVal) (b : Prop) [Decidable b] :
    lookupL (jField k v b) k = if b then none else some v := by
  unfold jField
  split <;> simp_all [lookupL]

theorem jStr_toJson_sessionId (d : UssdPayloadInternal) :
    jStr (payloadToJson d) "session_id" = d.SessionID := by
  unfold payloadToJson jStr
  simp only [List.append_assoc]
  rw [lookupL_jField_self]
  by_cases h : d.SessionID = ""
  · rw [if_pos h,
      lookupL_jField_ne "service_code" "session_id" _ _ _ (by decide),
      lookupL_jField_ne "msisdn" "session_id" _ _ _ (by decide),
      lookupL_jField_ne "ussd_params" "session_id" _ _ _ (by decide),
      lookupL_jField_ne "ussd_current_param" "session_id" _ _ _ (by decide),
      lookupL_jField_ne "is_short_cut" "session_id" _ _ _ (by decide),
      lookupL_jField_ne "validation_failed" "session_id" _ _ _ (by decide),
      lookupL_jField_last_ne "time" "session_id" _ _ (by decide)]
    exact h.symm
  · rw [if_neg h]

theorem jStr_toJson_serviceCode (d : UssdPayloadInternal) :
    jStr (payloadToJson d) "service_code" = d.ServiceCode := by
  unfold payloadToJson jStr
  simp only [List.append_assoc]
  rw [lookupL_jField_ne "session_id" "service_code" _ _ _ (by decide),
    lookupL_jField_self]
  by_cases h : d.ServiceCode = ""
  · rw [if_pos h,
      lookupL_jField_ne "msisdn" "service_code" _ _ _ (by decide),
      lookupL_jField_ne "ussd_params" "service_code" _ _ _ (by decide),
      lookupL_jField_ne "ussd_current_param" "service_code" _ _ _ (by decide),
      lookupL_jField_ne "is_short_cut" "service_code" _ _ _ (by decide),
      lookupL_jField_ne "validation_failed" "service_code" _ _ _ (by decide),
      lookupL_jField_last_ne "time" "service_code" _ _ (by decide)]
    exact h.symm
  · rw [if_neg h]

theorem jStr_toJson_msisdn (d : UssdPayloadInternal) :
    jStr (payloadToJson d) "msisdn" = d.Msisdn := by
  unfold payloadToJson jStr
  simp only [List.append_assoc]
  rw [lookupL_jField_ne "session_id" "msisdn" _ _ _ (by decide),
    lookupL_jField_ne "service_code" "msisdn" _ _ _ (by decide),
    lookupL_jField_self]
  by_cases h : d.Msisdn = ""
  · rw [if_pos h,
      lookupL_jField_ne "ussd_params" "msisdn" _ _ _ (by decide),
      lookupL_jField_ne "ussd_current_param" "msisdn" _ _ _ (by decide),
      lookupL_jField_ne "is_short_cut" "msisdn" _ _ _ (by decide),
      lookupL_jField_ne "validation_failed" "msisdn" _ _ _ (by decide),
      lookupL_jField_last_ne "time" "msisdn" _ _ (by decide)]
    exact h.symm
  · rw [if_neg h]

theorem jStr_toJson_ussdParams (d : UssdPayloadInternal) :
    jStr (payloadToJson d) "ussd_params" = d.UssdParams := by
  unfold payloadToJson jStr
  simp only [List.append_assoc]
  rw [lookupL_jField_ne "session_id" "ussd_params" _ _ _ (by decide),
    lookupL_jField_ne "service_code" "ussd_params" _ _ _ (by decide),
    lookupL_jField_ne "msisdn" "ussd_params" _ _ _ (by decide),
    lookupL_jField_self]
  by_cases h : d.UssdParams = ""
  · rw [if_pos h,
      lookupL_jField_ne "ussd_current_param" "ussd_params" _ _ _ (by decide),
      lookupL_jField_ne "is_short_cut" "ussd_params" _ _ _ (by decide),
      lookupL_jField_ne "validation_failed" "ussd_params" _ _ _ (by decide),
      lookupL_jField_last_ne "time" "ussd_params" _ _ (by decide)]
    exact h.symm
  · rw [if_neg h]

theorem jStr_toJson_ussdCurrentParam (d : UssdPayloadInternal) :
    jStr (payloadToJson d) "ussd_current_param" = d.UssdCurrentParam := by
  unfold payloadToJson jStr
  simp only [List.append_assoc]
  rw [lookupL_jField_ne "session_id" "ussd_current_param" _ _ _ (by decide),
    lookupL_jField_ne "service_code" "ussd_current_param" _ _ _ (by decide),
    lookupL_jField_ne "msisdn" "ussd_current_param" _ _ _ (by decide),
    lookupL_jField_ne "ussd_params" "ussd_current_param" _ _ _ (by decide),
    lookupL_jField_self]
  by_cases h : d.UssdCurrentParam = ""
  · rw [if_pos h,
      lookupL_jField_ne "is_short_cut" "ussd_current_param" _ _ _ (by decide),
      lookupL_jField_ne "validation_failed" "ussd_current_param" _ _ _ (by decide),
      lookupL_jField_last_ne "time" "ussd_current_param" _ _ (by decide)]
    exact h.symm
  · rw [if_neg h]

theorem jBool_toJson_isShortCut (d : UssdPayloadInternal) :
    jBool (payloadToJson d) "is_short_cut" = d.IsShortCut := by
  unfold payloadToJson jBool
  simp only [List.append_assoc]
  rw [lookupL_jField_ne "session_id" "is_short_cut" _ _ _ (by decide),
    lookupL_jField_ne "service_code" "is_short_cut" _ _ _ (by decide),
    lookupL_jField_ne "msisdn" "is_short_cut" _ _ _ (by decide),
    lookupL_jField_ne "ussd_params" "is_short_cut" _ _ _ (by decide),
    lookupL_jField_ne "ussd_current_param" "is_short_cut" _ _ _ (by decide),
    lookupL_jField_self]
  by_cases h : d.IsShortCut = false
  · rw [if_pos h,
      lookupL_jField_ne "validation_failed" "is_short_cut" _ _ _ (by decide),
      lookupL_jField_last_ne "time" "is_short_cut" _ _ (by decide)]
    exact h.symm
  · rw [if_neg h]

theorem jBool_toJson_validationFailed (d : UssdPayloadInternal) :
    jBool (payloadToJson d) "validation_failed" = d.ValidationFailed := by
  unfold payloadToJson jBool
  simp only [List.append_assoc]
  rw [lookupL_jField_ne "session_id" "validation_failed" _ _ _ (by decide),
    lookupL_jField_ne "service_code" "validation_failed" _ _ _ (by decide),
    lookupL_jField_ne "msisdn" "validation_failed" _ _ _ (by decide),
    lookupL_jField_ne "ussd_params" "validation_failed" _ _ _ (by decide),
    lookupL_jField_ne "ussd_current_param" "validation_failed" _ _ _ (by decide),
    lookupL_jField_ne "is_short_cut" "validation_failed" _ _ _ (by decide),
    lookupL_jField_self]
  by_cases h : d.ValidationFailed = false
  · rw [if_pos h, lookupL_jField_last_ne "time" "validation_failed" _ _ (by decide)]
    exact h.symm
  · rw [if_neg h]

theorem jStr_toJson_time (d : UssdPayloadInternal) :
    jStr (payloadToJson d) "time" = d.Time := by
  unfold payloadToJson jStr
  simp only [List.append_assoc]
  rw [lookupL_jField_ne "session_id" "time" _ _ _ (by decide),
    lookupL_jField_ne "service_code" "time" _ _ _ (by decide),
    lookupL_jField_ne "msisdn" "time" _ _ _ (by decide),
    lookupL_jField_ne "ussd_params" "time" _ _ _ (by decide),
    lookupL_jField_ne "ussd_current_param" "time" _ _ _ (by decide),
    lookupL_jField_ne "is_short_cut" "time" _ _ _ (by decide),
    lookupL_jField_ne "validation_failed" "time" _ _ _ (by decide),
    lookupL_jField_last_self]
  by_cases h : d.Time = ""
  · rw [if_pos h]
    exact h.symm
  · rw [if_neg h]

/-- C6: serializing a payload with `JSON()` and deserializing with
`UssdPayloadFromJSON` reproduces every public accessor — the `omitempty`
tags drop exactly the fields whose Go zero value the decoder restores —
and only the unexported transient `skip` marker is excluded from the
round trip (it is reset to false). -/
theorem payload_json_round_trip (d : UssdPayloadInternal) :
    payloadFromJson (payloadToJson d) = { d with skip := false } := by
  obtain ⟨s1, s2, s3, s4, s5, b1, b2, s6, sk⟩ := d
  simp only [payloadFromJson, UssdPayloadInternal.mk.injEq]
  exact ⟨jStr_toJson_sessionId _, jStr_toJson_serviceCode _, jStr_toJson_msisdn _,
    jStr_toJson_ussdParams _, jStr_toJson_ussdCurrentParam _, jBool_toJson_isShortCut _,
    jBool_toJson_validationFailed _, jStr_toJson_time _, trivial⟩

/-- C5 (amended): the GET and POST wire shapes yield payloads agreeing on
every public accessor only when the dialed string (and the other three
fields) are fixed points of query-unescaping and the last `*`-token of the
dial string carries no surrounding whitespace; in general the GET branch
additionally unescapes every value and trims the current param, while the
POST branch stores the raw dial string and does not trim.  See the
companion counterexample for the divergence. -/
theorem payloadFromRequest_get_post_equiv (sid code ms dialed : String)
    (h1 : queryUnescape sid = some sid) (h2 : queryUnescape code = some code)
    (h3 : queryUnescape ms = some ms) (h4 : queryUnescape dialed = some dialed)
    (h5 : goTrimSpace ((goSplitStar dialed).getLast?.getD "") =
      (goSplitStar dialed).getLast?.getD "") :
    payloadFromGET
        [("SESSION_ID", sid), ("SERVICE_CODE", code), ("DEST", ms), ("USSD_PARAMS", dialed)] =
      payloadFromPOST
        { Msisdn := ms, SessionID := sid, ServiceCode := code, UssdString := dialed } := by
  have hlast : ∀ l : List String,
      (if l = [] then [""] else l).getLast?.getD "" = l.getLast?.getD "" := by
    intro l
    cases l <;> simp
  have hsid : getQueryVal
      [("SESSION_ID", sid), ("SERVICE_CODE", code), ("DEST", ms), ("USSD_PARAMS", dialed)]
      ["SESSION_ID", "session-id", "session_id", "session"] = sid := by
    by_cases h : sid = ""
    · simp [getQueryVal, lookupL, h]
    · simp [getQueryVal, lookupL, h, h1]
  have hcode : getQueryVal
      [("SESSION_ID", sid), ("SERVICE_CODE", code), ("DEST", ms), ("USSD_PARAMS", dialed)]
      ["SERVICE_CODE", "ORIG", "service-code", "service_code"] = code := by
    by_cases h : code = ""
    · simp [getQueryVal, lookupL, h]
    · simp [getQueryVal, lookupL, h, h2]
  have hms : getQueryVal
      [("SESSION_ID", sid), ("SERVICE_CODE", code), ("DEST", ms), ("USSD_PARAMS", dialed)]
      ["DEST", "MSISDN", "msisdn"] = ms := by
    by_cases h : ms = ""
    · simp [getQueryVal, lookupL, h]
    · simp [getQueryVal, lookupL, h, h3]
  have hd : getQueryVal
      [("SESSION_ID", sid), ("SERVICE_CODE", code), ("DEST", ms), ("USSD_PARAMS", dialed)]
      ["USSD_PARAMS", "USSD_STRING", "ussd-string", "ussd_string"] = dialed := by
    by_cases h : dialed = ""
    · simp [getQueryVal, lookupL, h]
    · simp [getQueryVal, lookupL, h, h4]
  simp [payloadFromGET, payloadFromPOST, hsid, hcode, hms, hd, h4, hlast, h5]

/-- Witness for `payloadFromRequest_get_post_equiv`: for a plain dial
string `1*2` and plain identifiers, the two wire shapes produce the same
payload. -/
theorem payloadFromRequest_get_post_equiv_witness :
    payloadFromGET
        [("SESSION_ID", "sess1"), ("SERVICE_CODE", "c42"), ("DEST", "254700000001"),
         ("USSD_PARAMS", "1*2")] =
      payloadFromPOST
        { Msisdn := "254700000001", SessionID := "sess1", ServiceCode := "c42",
          UssdString := "1*2" } :=
  payloadFromRequest_get_post_equiv "sess1" "c42" "254700000001" "1*2" rfl rfl rfl rfl rfl

/-- C5 counterexample: the same four wire values with dial string `1*2 `
(trailing space) produce different snapshots: the GET branch trims the
current param to `2`, the POST branch keeps `2 `. -/
theorem payloadFromRequest_counterexample :
    (payloadFromGET cxParams).UssdCurrentParam = "2" ∧
    (payloadFromPOST cxPost).UssdCurrentParam = "2 " ∧
    (payloadFromGET cxParams).UssdCurrentParam ≠ (payloadFromPOST cxPost).UssdCurrentParam :=
  ⟨rfl, rfl, by decide⟩

/-- C7 (amended): for a failed (or validation-failed) response whose
trimmed body starts with `CON` or `END` and is strictly longer than the
bare 3-letter prefix, the framed wire text is that prefix, a space, the
status message, a newline, then the trimmed body with its first 4
characters removed.  The claim's reading over the original (untrimmed)
body fails — the banner splice operates on the trimmed body — and on a
trimmed body of exactly `CON`/`END` the Go slice `res[4:]` panics; see the
companion counterexample. -/
theorem writeUSSDResponse_failed_framing (up : UssdPayloadInternal) (sr : SessionResponseS)
    (hf : sr.failed = true ∨ up.ValidationFailed = true)
    (hp : ("CON".data.isPrefixOf (goTrimSpace sr.response).data) = true ∨
          ("END".data.isPrefixOf (goTrimSpace sr.response).data) = true)
    (hl : 4 ≤ (goTrimSpace sr.response).data.length) :
    WriteUSSDResponse up sr =
      some (String.mk ((goTrimSpace sr.response).data.take 3) ++ " " ++ sr.statusMessage ++
        "\n" ++ String.mk ((goTrimSpace sr.response).data.drop 4)) := by
  have hcond : (sr.failed || up.ValidationFailed) = true := by
    rcases hf with h | h <;> simp [h]
  rcases hp with hp | hp
  · obtain ⟨t, ht⟩ := List.isPrefixOf_iff_prefix.1 hp
    have hdata : (goTrimSpace sr.response).data = 'C' :: 'O' :: 'N' :: t := ht.symm
    obtain ⟨c, t', rfl⟩ : ∃ c t', t = c :: t' := by
      cases t with
      | nil =>
        rw [hdata] at hl
        simp at hl
      | cons c t' => exact ⟨c, t', rfl⟩
    simp only [WriteUSSDResponse, goSliceFrom, hcond, hdata]
    simp [List.isPrefixOf, String.data_append]
  · obtain ⟨t, ht⟩ := List.isPrefixOf_iff_prefix.1 hp
    have hdata : (goTrimSpace sr.response).data = 'E' :: 'N' :: 'D' :: t := ht.symm
    obtain ⟨c, t', rfl⟩ : ∃ c t', t = c :: t' := by
      cases t with
      | nil =>
        rw [hdata] at hl
        simp at hl
      | cons c t' => exact ⟨c, t', rfl⟩
    simp only [WriteUSSDResponse, goSliceFrom, hcond, hdata]
    simp [List.isPrefixOf, String.data_append]

/-- Witness for `writeUSSDResponse_failed_framing`: the spec's concrete
instance — body `CON pick option`, failed, status message `bad input` —
frames to `CON bad input` on a new first line followed by `pick option`. -/
theorem writeUSSDResponse_failed_framing_witness :
    WriteUSSDResponse pDemo srPick = some "CON bad input\npick option" :=
  (writeUSSDResponse_failed_framing pDemo srPick (Or.inl rfl) (Or.inl (by decide))
    (by decide)).trans (by decide)

/-- C7 counterexample: for the failed response with body `CON hi ` the
framer emits `CON m` followed by the trimmed remainder `hi`, not the
claim's "original body with its first 4 characters removed" (which would
keep the trailing space); and on a trimmed body of exactly `CON` the Go
slice `res[4:]` panics instead of producing any framed text. -/
theorem writeUSSDResponse_counterexample :
    WriteUSSDResponse pDemo srPad = some "CON m\nhi" ∧
    WriteUSSDResponse pDemo srPad ≠
      some ("CON" ++ " " ++ srPad.statusMessage ++ "\n" ++
        String.mk (srPad.response.data.drop 4)) ∧
    WriteUSSDResponse pDemo srBare = none := by
  refine ⟨?_, ?_, ?_⟩ <;> decide
